import Mathlib

/-!
Verification of the crossmodal_filtering repository (src/lib/panda_models.py,
src/lib/panda_training.py) against its natural-language specification.

Shallow embedding conventions:
- Torch tensors are embedded as total functions from index tuples to scalars,
  with their shape carried separately as explicit natural-number parameters.
  The leading-dimension conventions from the source are kept: N is the batch
  (trajectory) count, M the particle count, D the state dimension.
- Scalars are rationals, except in PandaSimpleDynamicsModel.forward, where
  torch.norm takes a real square root, so that model is embedded over the reals.
- Python asserts and torch runtime shape errors are embedded as Except String:
  a raised exception is an .error value carrying the kind of failure.
- Random draws (torch.distributions sampling, np.random) are passed in as
  explicit inputs: a theorem quantifying over the noise input covers every
  possible draw.
- Learned layer stacks (nn.Sequential of Linear / resblocks with trained
  weights) are opaque parameters: each stack is a function from an input
  feature vector to an output feature vector.  Their input-dimension
  constraints (which torch enforces at matmul time) are embedded as explicit
  shape checks at the call sites, mirroring where torch would raise.
-/

open BigOperators

/-! ### PandaSimpleDynamicsModel (src/lib/panda_models.py, lines 16-62)

The simple model has no learned parameters; its only configuration is the
per-dimension noise standard deviation tuple. -/

/-! ### PandaDynamicsModel (src/lib/panda_models.py, lines 65-154) -/

/-! ### Theorems about the dynamics models -/

/-! ### PandaMeasurementModel (src/lib/panda_models.py, lines 157-240) -/

/-! ### Training loops (src/lib/panda_training.py)

The training entry points touch external collaborators (the optimizer wrapper
buddy, tqdm, logging); only their data and control flow is embedded.  A run
is summarized as a pair: the number of completed optimizer steps
(buddy.minimize calls) and the error that terminated the run, if any.
The particle-filter forward pass (pf_model.forward, defined in the dpf module
which is not part of this repository) and dpf.gmm_loss are opaque
parameters. -/

/-! ### rollout (src/lib/panda_training.py, lines 307-375) -/

structure PandaSimpleDynamicsModel where
  state_noise_stddev : List ℝ

/-- Embedding of PandaSimpleDynamicsModel.forward (panda_models.py lines 36-62).
The input states_prev has shape (N, M, D) and controls has shape (Nc, Cd);
controls is received but never read by the source function.  The Gaussian
draw of line 53 is the explicit input noise.  When noisy is set, the source
adds the noise and then divides the dims-2..3 slice by
torch.norm(states_new[:, :, 2:4]) (line 58), which is a single Frobenius norm
over the whole (N, M, 2) slice because no dim argument is given; the result
shape (N, M, D) is returned alongside the data. -/
noncomputable def PandaSimpleDynamicsModel.forward (self : PandaSimpleDynamicsModel)
    (N M D Nc Cd : ℕ) (states_prev : ℕ → ℕ → ℕ → ℝ) (controls : ℕ → ℕ → ℝ)
    (noisy : Bool) (noise : ℕ → ℕ → ℕ → ℝ) :
    Except String ((ℕ × ℕ × ℕ) × (ℕ → ℕ → ℕ → ℝ)) :=
  -- line 40: assert len(states_prev.shape) == 3 holds by representation
  -- line 45: assert state_dim == len(self.state_noise_stddev)
  if self.state_noise_stddev.length ≠ D then
    .error "AssertionError: state_dim == len(state_noise_stddev)"
  else if noisy then
    -- lines 51-55: states_new = states_prev + noise
    let states_noised : ℕ → ℕ → ℕ → ℝ := fun n m d => states_prev n m d + noise n m d
    -- line 58: scale = torch.norm(states_new[:, :, 2:4], keepdim=True),
    -- a single scalar: the square root of the sum of squares of the whole slice
    let scale : ℝ := Real.sqrt (∑ n ∈ Finset.range N, ∑ m ∈ Finset.range M,
      ∑ d ∈ Finset.range D, if 2 ≤ d ∧ d < 4 then (states_noised n m d) ^ 2 else 0)
    -- line 59: states_new[:, :, 2:4] /= scale
    .ok ((N, M, D), fun n m d =>
      if 2 ≤ d ∧ d < 4 then states_noised n m d / scale else states_noised n m d)
  else
    -- line 47 and line 62: states_new = states_prev is returned unchanged
    .ok ((N, M, D), states_prev)

/-- Concrete Gaussian draw used to exhibit the normalization defect of
PandaSimpleDynamicsModel.forward: particle 0 receives (cos, sin) noise (3, 4)
and particle 1 receives (6, 8); all other components are 0. -/
noncomputable def c1NoiseDraw : ℕ → ℕ → ℕ → ℝ := fun _ m d =>
  if m = 0 then (if d = 2 then 3 else if d = 3 then 4 else 0)
  else (if d = 2 then 6 else if d = 3 then 8 else 0)

/-- The learned dynamics model.  state_layers, control_layers and
shared_layers are the three nn.Sequential stacks built in __init__ with
trained weights; they are opaque feature maps here.  Their fixed input
dimensions (state_dim = 2, control_dim = 7, units) are enforced at the call
sites in forward, where torch would raise. -/
structure PandaDynamicsModel where
  state_noise_stddev : List ℚ
  units : ℕ
  state_layers : (ℕ → ℚ) → (ℕ → ℚ)
  control_layers : (ℕ → ℚ) → (ℕ → ℚ)
  shared_layers : (ℕ → ℚ) → (ℕ → ℚ)

/-- The per-particle additive state delta predicted by PandaDynamicsModel:
the control-feature embedding of the trajectory control (independent of the
particle index m), concatenated with the per-particle state-feature embedding,
pushed through the shared residual trunk (panda_models.py lines 117-137). -/
def dynDelta (self : PandaDynamicsModel) (states_prev : ℕ → ℕ → ℕ → ℚ)
    (controls : ℕ → ℕ → ℚ) (n m : ℕ) : ℕ → ℚ :=
  self.shared_layers (fun i =>
    if i < self.units / 2 then self.control_layers (controls n) i
    else self.state_layers (states_prev n m) (i - self.units / 2))

/-- Embedding of PandaDynamicsModel.forward (panda_models.py lines 105-154).
Checks mirror, in source order: the control_layers input dimension (torch
matmul error if Cd is not 7), the line 118 assert that the control features
have batch size N, the state_layers input dimension (torch matmul error if D
is not 2), and the line 133 assert that the concatenated features have last
dimension units.  The Gaussian draw of line 149 is the explicit input
noise; line 150 asserts its last dimension, i.e. the stddev tuple length,
equals state_dim. -/
def PandaDynamicsModel.forward (self : PandaDynamicsModel)
    (N M D Nc Cd : ℕ) (states_prev : ℕ → ℕ → ℕ → ℚ) (controls : ℕ → ℕ → ℚ)
    (noisy : Bool) (noise : ℕ → ℕ → ℕ → ℚ) :
    Except String ((ℕ × ℕ × ℕ) × (ℕ → ℕ → ℕ → ℚ)) :=
  -- lines 109-110: ndim asserts hold by representation
  if Cd ≠ 7 then
    .error "RuntimeError: control_layers expects control_dim 7"
  else if Nc ≠ N then
    -- line 118: assert control_features.shape == (N, self.units // 2)
    .error "AssertionError: control_features.shape == (N, units // 2)"
  else if D ≠ 2 then
    .error "RuntimeError: state_layers expects state_dim 2"
  else if self.units / 2 + self.units / 2 ≠ self.units then
    -- line 133: assert merged_features.shape == (N, M, self.units)
    .error "AssertionError: merged_features.shape == (N, M, units)"
  else
    -- line 117: control_features = self.control_layers(controls), shape (N, units // 2)
    let control_features : ℕ → ℕ → ℚ := fun n => self.control_layers (controls n)
    -- lines 121-122: broadcast across the particle axis: (N, units // 2) => (N, M, units // 2)
    let control_features_e : ℕ → ℕ → ℕ → ℚ := fun n _m => control_features n
    -- line 126: state_features = self.state_layers(states_prev), per particle
    let state_features : ℕ → ℕ → ℕ → ℚ := fun n m => self.state_layers (states_prev n m)
    -- lines 130-132: merged_features = cat((control_features, state_features), dim=2)
    let merged_features : ℕ → ℕ → ℕ → ℚ := fun n m i =>
      if i < self.units / 2 then control_features_e n m i
      else state_features n m (i - self.units / 2)
    -- line 136: state_update = self.shared_layers(merged_features)
    let state_update : ℕ → ℕ → ℕ → ℚ := fun n m => self.shared_layers (merged_features n m)
    -- line 140: states_new = states_prev + state_update
    let states_new : ℕ → ℕ → ℕ → ℚ := fun n m d => states_prev n m d + state_update n m d
    if noisy then
      if self.state_noise_stddev.length ≠ D then
        -- line 150: assert noise.shape == (N, M, state_dim)
        .error "AssertionError: noise.shape == (N, M, state_dim)"
      else
        -- line 151: states_new = states_new + noise
        .ok ((N, M, D), fun n m d => states_new n m d + noise n m d)
    else
      .ok ((N, M, D), states_new)

/-- The observations argument of PandaMeasurementModel.forward: a dictionary
with the three recognized keys.  A missing key (a none field) makes the
corresponding lookup raise KeyError.  Each entry carries its batch size and,
for the image, its height and width; for the two vector entries, their
feature dimension. -/
structure ObsDict where
  image : Option (ℕ × ℕ × ℕ × (ℕ → ℕ → ℕ → ℚ))
  gripper_pos : Option (ℕ × ℕ × (ℕ → ℕ → ℚ))
  gripper_sensors : Option (ℕ × ℕ × (ℕ → ℕ → ℚ))

/-- The learned measurement model.  The five nn.Sequential stacks of __init__
are opaque feature maps with trained weights; image_trunk is the content of
observation_image_layers after its shape preconditions (checked in forward)
are met: the two Conv2d(kernel_size=3, padding=1) layers preserve H and W,
Flatten produces H * W features, and Linear(1024, units) requires
H * W = 1024. -/
structure PandaMeasurementModel where
  units : ℕ
  image_trunk : ℕ → ℕ → (ℕ → ℕ → ℚ) → (ℕ → ℚ)
  observation_pos_layers : (ℕ → ℚ) → (ℕ → ℚ)
  observation_sensors_layers : (ℕ → ℚ) → (ℕ → ℚ)
  state_layers : (ℕ → ℚ) → (ℕ → ℚ)
  shared_layers : (ℕ → ℚ) → (ℕ → ℚ)

/-- The per-trajectory observation feature vector of panda_models.py lines
211-217: torch.cat of the image features, gripper-position features and
gripper-sensor features along dim 1, one vector of length 3 * units per
trajectory n.  The nb index embeds the line 220 expand, which broadcasts a
batch of size 1 across N. -/
def obsFeatures (self : PandaMeasurementModel) (Ni H W : ℕ)
    (img : ℕ → ℕ → ℕ → ℚ) (pos sens : ℕ → ℕ → ℚ) : ℕ → ℕ → ℚ := fun n i =>
  let nb := if Ni = 1 then 0 else n
  if i < self.units then self.image_trunk H W (fun h w => img nb h w) i
  else if i < 2 * self.units then self.observation_pos_layers (pos nb) (i - self.units)
  else self.observation_sensors_layers (sens nb) (i - 2 * self.units)

/-- One fused log-likelihood value: the shared trunk applied to the
concatenation of a per-trajectory observation feature vector with the state
features of one particle, squeezed to a scalar (panda_models.py lines
229-240). -/
def fuseFeatures (self : PandaMeasurementModel) (obsF : ℕ → ℚ) (state_vec : ℕ → ℚ) : ℚ :=
  self.shared_layers (fun i =>
    if i < 3 * self.units then obsF i
    else self.state_layers state_vec (i - 3 * self.units)) 0

/-- Embedding of PandaMeasurementModel.forward (panda_models.py lines
200-240).  The dictionary lookups of lines 213-216 raise KeyError on a
missing key, in evaluation order image, gripper_pos, gripper_sensors; the
torch shape errors are raised where torch would raise them: inside
observation_image_layers (Conv2d needs H, W at least 1; Linear(1024, units)
needs H * W = 1024), inside observation_pos_layers (dim 3), inside
observation_sensors_layers (dim 7), at the line 211 torch.cat (equal batch
sizes), at the line 220 expand (batch N or 1), and inside state_layers
(state_dim 2).  On success the result has shape (N, M) after the line 240
squeeze. -/
def PandaMeasurementModel.forward (self : PandaMeasurementModel)
    (N M D : ℕ) (observations : ObsDict) (states : ℕ → ℕ → ℕ → ℚ) :
    Except String ((ℕ × ℕ) × (ℕ → ℕ → ℚ)) :=
  -- line 201: assert type(observations) == dict holds by representation
  -- line 202: assert len(states.shape) == 3 holds by representation
  match observations.image with
  | none => .error "KeyError: image"
  | some (Ni, H, W, img) =>
    if H = 0 ∨ W = 0 then
      .error "RuntimeError: conv2d input smaller than kernel"
    else if H * W ≠ 1024 then
      .error "RuntimeError: flatten does not match Linear(1024, units)"
    else
      match observations.gripper_pos with
      | none => .error "KeyError: gripper_pos"
      | some (Np, Pd, pos) =>
        if Pd ≠ 3 then .error "RuntimeError: observation_pos_layers expects dim 3"
        else
          match observations.gripper_sensors with
          | none => .error "KeyError: gripper_sensors"
          | some (Ns, Sd, sens) =>
            if Sd ≠ 7 then .error "RuntimeError: observation_sensors_layers expects dim 7"
            else if Np ≠ Ni ∨ Ns ≠ Ni then .error "RuntimeError: torch.cat batch mismatch"
            else if ¬ (Ni = N ∨ Ni = 1) then .error "RuntimeError: expand batch mismatch"
            else if D ≠ 2 then .error "RuntimeError: state_layers expects state_dim 2"
            else
              let observation_features := obsFeatures self Ni H W img pos sens
              -- line 225: state_features = self.state_layers(states), per particle
              let state_features : ℕ → ℕ → ℕ → ℚ := fun n m => self.state_layers (states n m)
              -- lines 230-232: merged_features = cat((observation_features, state_features), dim=2)
              let merged_features : ℕ → ℕ → ℕ → ℚ := fun n m i =>
                if i < 3 * self.units then observation_features n i
                else state_features n m (i - 3 * self.units)
              -- lines 236-240: shared_layers then squeeze(dim=2)
              .ok ((N, M), fun n m => self.shared_layers (merged_features n m) 0)

/-- Concrete measurement model used by the witness of the C3 theorem. -/
def c3Model : PandaMeasurementModel :=
  ⟨1, fun _ _ im _ => im 0 0, id, id, id, id⟩

/-- Concrete observation dictionary with a 32 x 32 image, used by the witness
of the C3 theorem. -/
def c3Obs : ObsDict :=
  ⟨some (1, 32, 32, fun _ _ _ => 5), some (1, 3, fun _ _ => 1), some (1, 7, fun _ _ => 2)⟩

/-- Concrete measurement model used by the witness of the C10 theorem. -/
def c10Model : PandaMeasurementModel :=
  ⟨2, fun _ _ im _ => im 0 0, id, id, id, id⟩

/-- Observation dictionary with an 8 x 8 image (64 pixels instead of 1024),
used by the witness of the C10 theorem. -/
def c10Obs : ObsDict :=
  ⟨some (1, 8, 8, fun _ _ _ => 0), none, none⟩

/-- A tensor paired with a flag recording whether the autograd graph reaching
back to earlier timesteps is still attached.  Traced.detach models
tensor.detach(): same value, severed graph. -/
structure Traced (α : Type) where
  val : α
  graphLive : Bool

/-- Embedding of tensor.detach(): the carried value with the gradient path
severed.  In train_e2e this appears only in the commented-out lines 286-287
of panda_training.py. -/
def Traced.detach {α : Type} (t : Traced α) : Traced α := ⟨t.val, false⟩

/-- Elementwise differences mapped through f and flattened, the common core
of the torch reduction losses below (all of them reduce with a global
mean). -/
def flatDiff (f : ℚ → ℚ) (a b : List (List ℚ)) : List ℚ :=
  (List.zipWith (fun x y => List.zipWith (fun p q => f (p - q)) x y) a b).flatten

/-- Mean of a list of rationals (torch.mean over all elements). -/
def meanList (l : List ℚ) : ℚ := l.sum / l.length

/-- F.mse_loss / torch.mean((a - b) ** 2). -/
def mse_loss (a b : List (List ℚ)) : ℚ := meanList (flatDiff (fun d => d ^ 2) a b)

/-- F.l1_loss: mean absolute error. -/
def l1_loss (a b : List (List ℚ)) : ℚ := meanList (flatDiff (fun d => |d|) a b)

/-- F.smooth_l1_loss with the default beta = 1. -/
def smooth_l1_loss (a b : List (List ℚ)) : ℚ :=
  meanList (flatDiff (fun d => if |d| < 1 then d ^ 2 / 2 else |d| - 1 / 2) a b)

/-- The caller-selectable arguments of train_e2e (panda_training.py lines
222-223) that reach the per-timestep recursion.  log_interval and optim_name
only affect logging and are omitted.  There is no argument controlling
detaching of particles or weights between timesteps. -/
structure E2EConfig where
  loss_type : String
  resample : Bool
  know_image_blackout : Bool

/-- One batch yielded by the end-to-end dataloader:
(batch_particles, batch_states, batch_obs, batch_controls), line 228.
states, obs and controls are stored time-major: entry t of states is the
(N, D) slice batch_states[:, t, :], entry t of obs is
DictIterator(batch_obs)[:, t, :], and entry t of controls is
batch_controls[:, t, :]. -/
structure E2EBatch (α β O C : Type) where
  particles : Traced α
  states : List (List (List ℚ))
  obs : List O
  controls : List C

/-- Embedding of the between-timestep carry of train_e2e, panda_training.py
lines 281-287: the live comment says Enable backprop through time, and the
new particles and log-weights are carried unchanged into the next timestep;
the detaching variant exists only as commented-out code.  No configuration
reaches this point: the function takes no flag. -/
def e2eCarry {α β : Type} (new_particles : Traced α) (new_log_weights : Traced β) :
    Traced α × Traced β :=
  (new_particles, new_log_weights)

/-- Embedding of the timestep loop of train_e2e (panda_training.py lines
242-289): for each t, call pf_model.forward on the carried particles and
log-weights with the observation at t - 1 and the control at t (resample
from the config, noisy_dynamics always true), dispatch on loss_type (gmm,
mse, otherwise the line 277 assert False with message Invalid loss), append
the loss, and carry the new tensors through e2eCarry. -/
def e2eLoop {α β O C : Type} [Inhabited O] [Inhabited C]
    (pf_forward : Traced α → Traced β → O → C → Bool → Bool → Bool →
      List (List ℚ) × Traced α × Traced β)
    (gmm_loss : Traced α → Traced β → List (List ℚ) → ℚ)
    (cfg : E2EConfig) (batch : E2EBatch α β O C)
    (ts : List ℕ) (carry : Traced α × Traced β) (losses : List ℚ) :
    Except String (List ℚ × (Traced α × Traced β)) :=
  match ts with
  | [] => .ok (losses, carry)
  | t :: rest =>
    let step := pf_forward carry.1 carry.2 (batch.obs.getD (t - 1) default)
      (batch.controls.getD t default) cfg.resample true cfg.know_image_blackout
    if cfg.loss_type = "gmm" then
      e2eLoop pf_forward gmm_loss cfg batch rest (e2eCarry step.2.1 step.2.2)
        (losses ++ [gmm_loss step.2.1 step.2.2 (batch.states.getD t [])])
    else if cfg.loss_type = "mse" then
      e2eLoop pf_forward gmm_loss cfg batch rest (e2eCarry step.2.1 step.2.2)
        (losses ++ [mse_loss step.1 (batch.states.getD t [])])
    else .error "AssertionError: Invalid loss"

/-- Processing of one batch by train_e2e (panda_training.py lines 225-294):
timesteps is read from the states shape, the line 234 assert checks the
controls length against it, the timestep loop runs over t in range(1,
timesteps), and buddy.minimize is called on the stacked losses
(torch.stack raises on an empty list).  init_log_weights models the fresh
uniform tensor torch.ones((N, M)) * (-log M) of line 238. -/
def train_e2e_batch {α β O C : Type} [Inhabited O] [Inhabited C]
    (pf_forward : Traced α → Traced β → O → C → Bool → Bool → Bool →
      List (List ℚ) × Traced α × Traced β)
    (gmm_loss : Traced α → Traced β → List (List ℚ) → ℚ)
    (cfg : E2EConfig) (init_log_weights : Traced β) (batch : E2EBatch α β O C) :
    Except String Unit :=
  let timesteps := batch.states.length
  if batch.controls.length ≠ timesteps then
    .error "AssertionError: batch_controls.shape == (N, timesteps, control_dim)"
  else
    match e2eLoop pf_forward gmm_loss cfg batch (List.range' 1 (timesteps - 1))
        (batch.particles, init_log_weights) [] with
    | .error e => .error e
    | .ok (losses, _final) =>
      if losses.isEmpty then .error "RuntimeError: stack expects a non-empty TensorList"
      else .ok ()

/-- Embedding of train_e2e (panda_training.py lines 222-304): process the
batches in order; the result counts completed optimizer steps and reports
the first raised error, if any. -/
def train_e2e {α β O C : Type} [Inhabited O] [Inhabited C]
    (pf_forward : Traced α → Traced β → O → C → Bool → Bool → Bool →
      List (List ℚ) × Traced α × Traced β)
    (gmm_loss : Traced α → Traced β → List (List ℚ) → ℚ)
    (cfg : E2EConfig) (init_log_weights : Traced β) :
    List (E2EBatch α β O C) → ℕ × Option String
  | [] => (0, none)
  | b :: rest =>
    match train_e2e_batch pf_forward gmm_loss cfg init_log_weights b with
    | .error e => (0, some e)
    | .ok _ =>
      let r := train_e2e pf_forward gmm_loss cfg init_log_weights rest
      (r.1 + 1, r.2)

/-- The loss types accepted by the line 15 assert of
train_dynamics_recurrent. -/
def validDynLossTypes : List String := ["l1", "l2", "huber", "peter"]

/-- One batch yielded by the recurrent-dynamics dataloader:
(batch_states, batch_obs, batch_controls), line 23; batch_obs is unused by
the function and omitted.  states and controls are stored time-major as in
E2EBatch. -/
structure DynBatch (C : Type) where
  states : List (List (List ℚ))
  controls : List C

/-- Embedding of the timestep loop of train_dynamics_recurrent
(panda_training.py lines 45-104): propagate the carried states through the
dynamics model with noisy=False, then dispatch on loss_type.  The l1, l2 and
huber branches compute the live (uncommented) losses of lines 64, 67 and 71
against batch_states[:, t, :]; the peter branch hits the unconditional
assert False of line 76; the final else is the line 97 assert False.  The
numpy delta bookkeeping of lines 39-43 and 101-107 is logging-only and
omitted. -/
def dynLoop {C : Type} [Inhabited C]
    (dyn_forward : List (List ℚ) → C → List (List ℚ)) (loss_type : String)
    (batch_states : List (List (List ℚ))) (batch_controls : List C)
    (ts : List ℕ) (prev_states : List (List ℚ)) (losses : List ℚ) :
    Except String (List ℚ) :=
  match ts with
  | [] => .ok losses
  | t :: rest =>
    let new_states := dyn_forward prev_states (batch_controls.getD t default)
    let target := batch_states.getD t []
    if loss_type = "l1" then
      dynLoop dyn_forward loss_type batch_states batch_controls rest new_states
        (losses ++ [l1_loss new_states target])
    else if loss_type = "l2" then
      dynLoop dyn_forward loss_type batch_states batch_controls rest new_states
        (losses ++ [mse_loss new_states target])
    else if loss_type = "huber" then
      dynLoop dyn_forward loss_type batch_states batch_controls rest new_states
        (losses ++ [smooth_l1_loss target new_states])
    else if loss_type = "peter" then
      .error "AssertionError: peter loss is currently broken"
    else
      .error "AssertionError: unreachable loss branch"

/-- Processing of one batch by train_dynamics_recurrent (panda_training.py
lines 20-114): timesteps from the states shape, the line 27 controls-shape
assert, the timestep loop starting from batch_states[:, 0, :], then
buddy.minimize on the stacked losses. -/
def train_dynamics_recurrent_batch {C : Type} [Inhabited C]
    (dyn_forward : List (List ℚ) → C → List (List ℚ)) (loss_type : String)
    (b : DynBatch C) : Except String Unit :=
  let timesteps := b.states.length
  if b.controls.length ≠ timesteps then
    .error "AssertionError: batch_controls.shape == (N, timesteps, control_dim)"
  else
    match dynLoop dyn_forward loss_type b.states b.controls
        (List.range' 1 (timesteps - 1)) (b.states.getD 0 []) [] with
    | .error e => .error e
    | .ok losses =>
      if losses.isEmpty then .error "RuntimeError: stack expects a non-empty TensorList"
      else .ok ()

/-- The batch loop of train_dynamics_recurrent: counts optimizer steps and
stops at the first error. -/
def trainDynGo {C : Type} [Inhabited C]
    (dyn_forward : List (List ℚ) → C → List (List ℚ)) (loss_type : String) :
    List (DynBatch C) → ℕ × Option String
  | [] => (0, none)
  | b :: rest =>
    match train_dynamics_recurrent_batch dyn_forward loss_type b with
    | .error e => (0, some e)
    | .ok _ =>
      let r := trainDynGo dyn_forward loss_type rest
      (r.1 + 1, r.2)

/-- Embedding of train_dynamics_recurrent (panda_training.py lines 12-133):
the line 15 assert validates loss_type before any batch is read; then the
batch loop runs. -/
def train_dynamics_recurrent {C : Type} [Inhabited C]
    (dyn_forward : List (List ℚ) → C → List (List ℚ)) (loss_type : String)
    (batches : List (DynBatch C)) : ℕ × Option String :=
  if loss_type ∉ validDynLossTypes then
    (0, some "AssertionError: loss_type must be l1, l2, huber or peter")
  else trainDynGo dyn_forward loss_type batches

/-- Concrete particle-filter step used in the C6 and C7 theorems: its outputs
are graph-live tensors, as the real pf_model.forward outputs are during
training. -/
def c6PF : Traced ℚ → Traced ℚ → Unit → Unit → Bool → Bool → Bool →
    List (List ℚ) × Traced ℚ × Traced ℚ :=
  fun p w _ _ _ _ _ => ([[0, 0]], ⟨p.val + 1, true⟩, ⟨w.val + 1, true⟩)

/-- Concrete stand-in for dpf.gmm_loss in the C6 and C7 theorems. -/
def c6GMM : Traced ℚ → Traced ℚ → List (List ℚ) → ℚ := fun _ _ _ => 0

/-- Concrete two-timestep batch with N = 1 trajectory and D = 2 state
dimensions, used in the C6 and C7 theorems. -/
def c6Batch : E2EBatch ℚ ℚ Unit Unit :=
  ⟨⟨0, false⟩, [[[0, 0]], [[0, 0]]], [(), ()], [(), ()]⟩

/-- Every valid configuration of the train_e2e flags that reaches the
between-timestep carry: both loss types that pass the dispatch, both values
of resample, both values of know_image_blackout.  The remaining train_e2e
parameters (log_interval, optim_name) never reach the recursion. -/
def c6Configs : List E2EConfig :=
  [⟨"gmm", false, false⟩, ⟨"gmm", false, true⟩, ⟨"gmm", true, false⟩, ⟨"gmm", true, true⟩,
   ⟨"mse", false, false⟩, ⟨"mse", false, true⟩, ⟨"mse", true, false⟩, ⟨"mse", true, true⟩]

/-- Whether the particles and log-weights carried into the next timestep of
the embedded train_e2e recursion are still graph-live after one step under a
given configuration. -/
def c6CarryLive (cfg : E2EConfig) : Bool :=
  match e2eLoop c6PF c6GMM cfg c6Batch [1] (c6Batch.particles, ⟨0, false⟩) [] with
  | .ok r => r.2.1.graphLive && r.2.2.graphLive
  | .error _ => false

/-- One evaluation trajectory: the (states, observations, controls) triple
unpacked on line 344.  Observation and control types are opaque. -/
structure Trajectory (O C : Type) where
  states : List (List ℚ)
  observations : List O
  controls : List C

/-- Lines 311-312: end_time = np.min of every trajectory state count together
with start_time + max_timesteps. -/
def endTime {O C : Type} (trajs : List (Trajectory O C))
    (start_time max_timesteps : ℕ) : ℕ :=
  (trajs.map fun tr => tr.states.length).foldr min (start_time + max_timesteps)

/-- np.mean(particles[i], axis=0) of line 333: the dimension-wise mean of one
trajectory particle set. -/
def vecMean (D : ℕ) (ps : List (List ℚ)) : List ℚ :=
  (List.range D).map fun d => (ps.map fun v => v.getD d 0).sum / (ps.length : ℚ)

/-- The timestep loop of rollout (panda_training.py lines 339-371): per
timestep t, gather the per-trajectory observations and controls at index t,
call pf_model.forward (with resample=True; noisy_dynamics is absorbed into
pf_forward), carry the new particles and log-weights, and append the state
estimate of each trajectory to its predicted sequence.  The list s built on
line 346 is converted but never passed to the model and is omitted. -/
def rolloutLoop {O C : Type} [Inhabited O] [Inhabited C]
    (pf_forward : List (List (List ℚ)) → List (List ℚ) → List O → List C →
      List (List ℚ) × List (List (List ℚ)) × List (List ℚ))
    (trajs : List (Trajectory O C)) (ts : List ℕ)
    (particles : List (List (List ℚ))) (log_weights : List (List ℚ))
    (predicted_states : List (List (List ℚ))) : List (List (List ℚ)) :=
  match ts with
  | [] => predicted_states
  | t :: rest =>
    let o := trajs.map fun tr => tr.observations.getD t default
    let c := trajs.map fun tr => tr.controls.getD t default
    let step := pf_forward particles log_weights o c
    let predicted2 := (List.range trajs.length).map fun i =>
      predicted_states.getD i [] ++ [step.1.getD i []]
    rolloutLoop pf_forward trajs rest step.2.1 step.2.2 predicted2

/-- Embedding of rollout (panda_training.py lines 307-375).  The randomly
drawn initial particles of lines 322-329 (both the true_initial and the wide
uninformed variant) are the explicit input init_particles, and the
initial uniform log-weight value -log(M) of line 337 (irrational, and never
inspected by any claim) is the input neg_log_M.  actual_states is each
trajectory sliced to [start_time, end_time); line 316 indexes
actual_states[0][0] and raises IndexError when no trajectory exists or the
slice is empty; predicted_states starts from the particle means of line 333
and gains one state estimate per loop timestep; both are returned as the
pair of line 375. -/
def rollout {O C : Type} [Inhabited O] [Inhabited C]
    (pf_forward : List (List (List ℚ)) → List (List ℚ) → List O → List C →
      List (List ℚ) × List (List (List ℚ)) × List (List ℚ))
    (trajs : List (Trajectory O C)) (start_time max_timesteps particle_count : ℕ)
    (init_particles : List (List (List ℚ))) (neg_log_M : ℚ) :
    Except String (List (List (List ℚ)) × List (List (List ℚ))) :=
  let end_time := endTime trajs start_time max_timesteps
  let actual_states := trajs.map fun tr =>
    (tr.states.drop start_time).take (end_time - start_time)
  match actual_states with
  | [] => .error "IndexError: there are no trajectories"
  | a0 :: _ =>
    match a0 with
    | [] => .error "IndexError: actual_states[0] is empty"
    | s00 :: _ =>
      let state_dim := s00.length
      let predicted0 := (List.range trajs.length).map fun i =>
        [vecMean state_dim (init_particles.getD i [])]
      let log_weights0 := List.replicate trajs.length
        (List.replicate particle_count neg_log_M)
      .ok (rolloutLoop pf_forward trajs
        (List.range' (start_time + 1) (end_time - (start_time + 1)))
        init_particles log_weights0 predicted0, actual_states)

/-- Concrete particle-filter step used by the witness of the C5 theorem. -/
def c5PF : List (List (List ℚ)) → List (List ℚ) → List Unit → List Unit →
    List (List ℚ) × List (List (List ℚ)) × List (List ℚ) :=
  fun p w _ _ => ([[5, 5]], p, w)

/-- Concrete two-timestep trajectory with D = 2, used by the witness of the
C5 theorem. -/
def c5Traj : Trajectory Unit Unit := ⟨[[0, 0], [1, 1]], [(), ()], [(), ()]⟩

/-! ### Theorems settling the claims

The helper lemmas come first; each claim theorem carries the claim id in its
doc comment. -/

/-- C8: PandaSimpleDynamicsModel is an identity map when noise is disabled:
for every states_prev of shape (N, M, D) with D equal to the length of the
noise-stddev tuple and every controls input of any shape, forward with
noisy = false returns states_prev unchanged, with shape (N, M, D). -/
theorem c8_simple_forward_identity (self : PandaSimpleDynamicsModel)
    (N M D Nc Cd : ℕ) (states_prev : ℕ → ℕ → ℕ → ℝ) (controls : ℕ → ℕ → ℝ)
    (noise : ℕ → ℕ → ℕ → ℝ) (hD : self.state_noise_stddev.length = D) :
    self.forward N M D Nc Cd states_prev controls false noise
      = .ok ((N, M, D), states_prev) := by
  simp [PandaSimpleDynamicsModel.forward, hD]

/-- Witness for c8_simple_forward_identity at a concrete input: the default
stddev tuple (0.05, 0.05), a (1, 1, 2) state tensor and a (5, 7) controls
tensor. -/
theorem c8_simple_forward_identity_witness :
    (PandaSimpleDynamicsModel.mk [0.05, 0.05]).forward 1 1 2 5 7
      (fun _ _ _ => 1) (fun _ _ => 2) false (fun _ _ _ => 3)
      = .ok ((1, 1, 2), fun _ _ _ => 1) :=
  c8_simple_forward_identity (PandaSimpleDynamicsModel.mk [0.05, 0.05]) 1 1 2 5 7
    (fun _ _ _ => 1) (fun _ _ => 2) (fun _ _ _ => 3) rfl

/-- C1 (code bug): with noise enabled, PandaSimpleDynamicsModel.forward does
not renormalize the (cos, sin) pair per particle.  Line 58 of panda_models.py
computes torch.norm over the whole (N, M, 2) slice (no dim argument), so every
particle is divided by one global scalar.  At the concrete input below
(states_prev = 0, a Gaussian draw giving particle 0 the (cos, sin) pair (3, 4)
and particle 1 the pair (6, 8)), the returned per-particle values of
cos^2 + sin^2 are 1/5 and 4/5, both more than 1e-6 away from 1, contradicting
the specified per-particle unit-norm invariant (and the comment on line 57 of
the source, which announces a projection to valid cosine/sine space). -/
theorem c1_global_norm_bug :
    ((PandaSimpleDynamicsModel.mk [0.05, 0.05, 0.05, 0.05]).forward 1 2 4 1 7
        (fun _ _ _ => 0) (fun _ _ => 0) true c1NoiseDraw).map
      (fun r => ((r.2 0 0 2) ^ 2 + (r.2 0 0 3) ^ 2, (r.2 0 1 2) ^ 2 + (r.2 0 1 3) ^ 2))
      = .ok (1 / 5, 4 / 5)
    ∧ ¬ |(1 / 5 : ℝ) - 1| ≤ 1e-6 ∧ ¬ |(4 / 5 : ℝ) - 1| ≤ 1e-6 := by
  refine ⟨?_, by rw [abs_of_nonpos] <;> norm_num, by rw [abs_of_nonpos] <;> norm_num⟩
  simp only [PandaSimpleDynamicsModel.forward, Except.map]
  norm_num [c1NoiseDraw, Finset.sum_range_succ, Finset.sum_range_zero]
  rw [div_pow, div_pow, div_pow, div_pow, Real.sq_sqrt (by norm_num : (0:ℝ) ≤ 125)]
  norm_num

/-- C2 counterexample: PandaSimpleDynamicsModel.forward does not fail fast on
a controls batch-size mismatch.  Here states_prev has batch size N = 1 while
controls has batch size 5, yet forward returns successfully: the source never
reads controls at all. -/
theorem c2_no_fail_fast_cex :
    (PandaSimpleDynamicsModel.mk [0.05, 0.05]).forward 1 3 2 5 7
      (fun _ _ _ => 0) (fun _ _ => 42) false (fun _ _ _ => 0)
      = .ok ((1, 3, 2), fun _ _ _ => 0) := by
  simp [PandaSimpleDynamicsModel.forward]

/-- C2 amended: only PandaDynamicsModel.forward fails fast when the controls
batch size Nc differs from the states_prev batch size N (via the line 118
shape assert); PandaSimpleDynamicsModel.forward ignores its controls argument
entirely and returns successfully for every controls input. -/
theorem c2_amended_batch_mismatch :
    (∀ (self : PandaDynamicsModel) (N M D Nc : ℕ) (states_prev : ℕ → ℕ → ℕ → ℚ)
        (controls : ℕ → ℕ → ℚ) (noisy : Bool) (noise : ℕ → ℕ → ℕ → ℚ),
      Nc ≠ N →
      self.forward N M D Nc 7 states_prev controls noisy noise
        = .error "AssertionError: control_features.shape == (N, units // 2)")
    ∧ (∀ (self : PandaSimpleDynamicsModel) (N M D Nc Cd : ℕ)
        (states_prev : ℕ → ℕ → ℕ → ℝ) (controls : ℕ → ℕ → ℝ) (noise : ℕ → ℕ → ℕ → ℝ),
      self.state_noise_stddev.length = D →
      self.forward N M D Nc Cd states_prev controls false noise
        = .ok ((N, M, D), states_prev)) := by
  constructor
  · intro self N M D Nc states_prev controls noisy noise h
    simp [PandaDynamicsModel.forward, h]
  · intro self N M D Nc Cd states_prev controls noise h
    simp [PandaSimpleDynamicsModel.forward, h]

/-- Witness for c2_amended_batch_mismatch: the learned model rejects a
(3, 7) controls tensor against a (1, 1, 2) state tensor, while the simple
model accepts a (9, 7) controls tensor against a (2, 1, 2) state tensor. -/
theorem c2_amended_batch_mismatch_witness :
    (PandaDynamicsModel.mk [1, 1] 4 id id id).forward 1 1 2 3 7
        (fun _ _ _ => 0) (fun _ _ => 0) false (fun _ _ _ => 0)
      = .error "AssertionError: control_features.shape == (N, units // 2)"
    ∧ (PandaSimpleDynamicsModel.mk [0.05, 0.05]).forward 2 1 2 9 7
        (fun _ _ _ => 7) (fun _ _ => 0) false (fun _ _ _ => 0)
      = .ok ((2, 1, 2), fun _ _ _ => 7) :=
  ⟨c2_amended_batch_mismatch.1 (PandaDynamicsModel.mk [1, 1] 4 id id id) 1 1 2 3
      (fun _ _ _ => 0) (fun _ _ => 0) false (fun _ _ _ => 0) (by decide),
   c2_amended_batch_mismatch.2 (PandaSimpleDynamicsModel.mk [0.05, 0.05]) 2 1 2 9 7
      (fun _ _ _ => 7) (fun _ _ => 0) (fun _ _ _ => 0) rfl⟩

/-- C4: PandaDynamicsModel.forward predicts a per-particle additive delta,
dynDelta, built from the control-feature embedding of the trajectory control
(shared across all M particles: dynDelta reads controls at n only) fused with
the per-particle state-feature embedding through the shared residual trunk;
the delta is added to states_prev, and independent per-particle noise is
added only afterwards when noisy is true.  With noisy = false the output is
exactly states_prev plus the predicted delta. -/
theorem c4_learned_dynamics_delta (self : PandaDynamicsModel)
    (N M : ℕ) (states_prev : ℕ → ℕ → ℕ → ℚ) (controls : ℕ → ℕ → ℚ)
    (noise : ℕ → ℕ → ℕ → ℚ)
    (hu : self.units / 2 + self.units / 2 = self.units)
    (hs : self.state_noise_stddev.length = 2) :
    self.forward N M 2 N 7 states_prev controls false noise
      = .ok ((N, M, 2), fun n m d =>
          states_prev n m d + dynDelta self states_prev controls n m d)
    ∧ self.forward N M 2 N 7 states_prev controls true noise
      = .ok ((N, M, 2), fun n m d =>
          (states_prev n m d + dynDelta self states_prev controls n m d) + noise n m d) := by
  constructor <;> simp [PandaDynamicsModel.forward, dynDelta, hu, hs]

/-- Witness for c4_learned_dynamics_delta at a concrete model with units = 4
and identity feature stacks, on a (1, 1, 2) state tensor. -/
theorem c4_learned_dynamics_delta_witness :
    (PandaDynamicsModel.mk [1, 1] 4 id id id).forward 1 1 2 1 7
        (fun _ _ _ => 3) (fun _ _ => 5) false (fun _ _ _ => 11)
      = .ok ((1, 1, 2), fun n m d =>
          (fun _ _ _ => (3 : ℚ)) n m d
            + dynDelta (PandaDynamicsModel.mk [1, 1] 4 id id id)
                (fun _ _ _ => 3) (fun _ _ => 5) n m d) :=
  (c4_learned_dynamics_delta (PandaDynamicsModel.mk [1, 1] 4 id id id) 1 1
    (fun _ _ _ => 3) (fun _ _ => 5) (fun _ _ _ => 11) (by decide) rfl).1

/-- C3: on a well-formed observation dictionary (all three keys present with
their contracted shapes and a 1024-pixel image batched over the N
trajectories), PandaMeasurementModel.forward on states of shape (N, M, D)
returns log-likelihoods of shape (N, M) in which the observation feature
vector obsFeatures is computed once per trajectory n and fused identically
with every particle of that trajectory; hence two particles of one
trajectory with equal states receive equal log-likelihoods. -/
theorem c3_measurement_broadcast (self : PandaMeasurementModel)
    (N M H W : ℕ) (img : ℕ → ℕ → ℕ → ℚ) (pos sens : ℕ → ℕ → ℚ)
    (states : ℕ → ℕ → ℕ → ℚ) (obs : ObsDict)
    (himg : obs.image = some (N, H, W, img))
    (hHW : H * W = 1024)
    (hpos : obs.gripper_pos = some (N, 3, pos))
    (hsens : obs.gripper_sensors = some (N, 7, sens)) :
    self.forward N M 2 obs states
      = .ok ((N, M), fun n m =>
          fuseFeatures self (obsFeatures self N H W img pos sens n) (states n m))
    ∧ ∀ n m1 m2, states n m1 = states n m2 →
        fuseFeatures self (obsFeatures self N H W img pos sens n) (states n m1)
          = fuseFeatures self (obsFeatures self N H W img pos sens n) (states n m2) := by
  have hH : ¬ (H = 0 ∨ W = 0) := by
    rintro (h | h) <;> subst h <;> simp at hHW
  constructor
  · simp [PandaMeasurementModel.forward, himg, hpos, hsens, hH, hHW, fuseFeatures]
  · intro n m1 m2 h
    rw [h]

/-- Witness for c3_measurement_broadcast on the concrete model c3Model and
dictionary c3Obs with one trajectory and two particles. -/
theorem c3_measurement_broadcast_witness :
    c3Model.forward 1 2 2 c3Obs (fun _ _ _ => 0)
      = .ok ((1, 2), fun n m =>
          fuseFeatures c3Model
            (obsFeatures c3Model 1 32 32 (fun _ _ _ => 5) (fun _ _ => 1) (fun _ _ => 2) n)
            ((fun _ _ _ => (0 : ℚ) : ℕ → ℕ → ℕ → ℚ) n m))
    ∧ ∀ n m1 m2 : ℕ,
        (fun _ _ _ => (0 : ℚ) : ℕ → ℕ → ℕ → ℚ) n m1
          = (fun _ _ _ => (0 : ℚ) : ℕ → ℕ → ℕ → ℚ) n m2 →
        fuseFeatures c3Model
            (obsFeatures c3Model 1 32 32 (fun _ _ _ => 5) (fun _ _ => 1) (fun _ _ => 2) n)
            ((fun _ _ _ => (0 : ℚ) : ℕ → ℕ → ℕ → ℚ) n m1)
          = fuseFeatures c3Model
              (obsFeatures c3Model 1 32 32 (fun _ _ _ => 5) (fun _ _ => 1) (fun _ _ => 2) n)
              ((fun _ _ _ => (0 : ℚ) : ℕ → ℕ → ℕ → ℚ) n m2) :=
  c3_measurement_broadcast c3Model 1 2 32 32 (fun _ _ _ => 5) (fun _ _ => 1)
    (fun _ _ => 2) (fun _ _ _ => 0) c3Obs rfl (by norm_num) rfl rfl

/-- C10: PandaMeasurementModel.forward succeeds exactly when the observation
dictionary has all three keys, the image has exactly 1024 pixels
(H * W = 32 * 32 = 1024; the Conv2d stack preserves H and W, Flatten yields
H * W features and Linear(1024, units) fixes their count), the gripper_pos
and gripper_sensors entries have dims 3 and 7 with batch sizes matching the
image, the observation batch matches N (or is broadcastable 1), and the
state dimension is 2.  A missing key raises KeyError (image, gripper_pos,
gripper_sensors, in lookup order), and a present image of any other
resolution raises the Linear shape error. -/
theorem c10_image_shape_gate (self : PandaMeasurementModel)
    (N M D : ℕ) (obs : ObsDict) (states : ℕ → ℕ → ℕ → ℚ) :
    ((∃ r, self.forward N M D obs states = .ok r) ↔
      (∃ Ni H W img Np posv Ns sensv,
        obs.image = some (Ni, H, W, img) ∧ H * W = 1024 ∧
        obs.gripper_pos = some (Np, 3, posv) ∧
        obs.gripper_sensors = some (Ns, 7, sensv) ∧
        Np = Ni ∧ Ns = Ni ∧ (Ni = N ∨ Ni = 1) ∧ D = 2))
    ∧ (obs.image = none →
        self.forward N M D obs states = .error "KeyError: image")
    ∧ (∀ Ni H W img, obs.image = some (Ni, H, W, img) → 1 ≤ H → 1 ≤ W →
        H * W ≠ 1024 →
        self.forward N M D obs states
          = .error "RuntimeError: flatten does not match Linear(1024, units)")
    ∧ (∀ Ni H W img, obs.image = some (Ni, H, W, img) → H * W = 1024 →
        obs.gripper_pos = none →
        self.forward N M D obs states = .error "KeyError: gripper_pos")
    ∧ (∀ Ni H W img Np posv, obs.image = some (Ni, H, W, img) → H * W = 1024 →
        obs.gripper_pos = some (Np, 3, posv) → obs.gripper_sensors = none →
        self.forward N M D obs states = .error "KeyError: gripper_sensors") := by
  refine ⟨⟨?_, ?_⟩, ?_, ?_, ?_, ?_⟩
  · rintro ⟨r, hr⟩
    rcases hio : obs.image with _ | ⟨Ni, H, W, img⟩
    · simp [PandaMeasurementModel.forward, hio] at hr
    · rcases hpo : obs.gripper_pos with _ | ⟨Np, Pd, pos⟩
      · simp only [PandaMeasurementModel.forward, hio, hpo] at hr
        split_ifs at hr
      · rcases hso : obs.gripper_sensors with _ | ⟨Ns, Sd, sens⟩
        · simp only [PandaMeasurementModel.forward, hio, hpo, hso] at hr
          split_ifs at hr
        · simp only [PandaMeasurementModel.forward, hio, hpo, hso] at hr
          split_ifs at hr with h1 h2 h3 h4 h5 h6 h7
          push_neg at h5
          obtain ⟨hPd, hSd, hD⟩ : Pd = 3 ∧ Sd = 7 ∧ D = 2 := by omega
          subst hPd hSd hD
          exact ⟨Ni, H, W, img, Np, pos, Ns, sens, rfl, by omega, rfl, rfl,
            h5.1, h5.2, h6, rfl⟩
  · rintro ⟨Ni, H, W, img, Np, posv, Ns, sensv, hio, hHW, hpo, hso, hNp, hNs, hNi, hD⟩
    have hH : ¬ (H = 0 ∨ W = 0) := by rintro (h | h) <;> subst h <;> simp at hHW
    subst hD
    refine ⟨((N, M), fun n m =>
      fuseFeatures self (obsFeatures self Ni H W img posv sensv n) (states n m)), ?_⟩
    rcases hNi with rfl | rfl <;>
      simp [PandaMeasurementModel.forward, hio, hpo, hso, hH, hHW, hNp, hNs, fuseFeatures]
  · intro h
    simp [PandaMeasurementModel.forward, h]
  · intro Ni H W img hio h1 h2 hne
    have hH : ¬ (H = 0 ∨ W = 0) := by omega
    simp [PandaMeasurementModel.forward, hio, hH, hne]
  · intro Ni H W img hio hHW hpo
    have hH : ¬ (H = 0 ∨ W = 0) := by
      rintro (h | h) <;> subst h <;> simp at hHW
    simp [PandaMeasurementModel.forward, hio, hpo, hH, hHW]
  · intro Ni H W img Np posv hio hHW hpo hso
    have hH : ¬ (H = 0 ∨ W = 0) := by
      rintro (h | h) <;> subst h <;> simp at hHW
    simp [PandaMeasurementModel.forward, hio, hpo, hso, hH, hHW]

/-- Witness for c10_image_shape_gate: a dictionary with no image key raises
KeyError, and an 8 x 8 image (64 pixels) hits the Linear(1024, units) shape
error. -/
theorem c10_image_shape_gate_witness :
    c10Model.forward 1 1 2 (ObsDict.mk none none none) (fun _ _ _ => 0)
      = .error "KeyError: image"
    ∧ c10Model.forward 1 1 2 c10Obs (fun _ _ _ => 0)
      = .error "RuntimeError: flatten does not match Linear(1024, units)" :=
  ⟨(c10_image_shape_gate c10Model 1 1 2 (ObsDict.mk none none none)
      (fun _ _ _ => 0)).2.1 rfl,
   (c10_image_shape_gate c10Model 1 1 2 c10Obs (fun _ _ _ => 0)).2.2.1
      1 8 8 (fun _ _ _ => 0) rfl (by norm_num) (by norm_num) (by norm_num)⟩

/-- C6 counterexample: no caller-selectable configuration of train_e2e severs
the gradient path between timesteps.  For every configuration in c6Configs
(the full product of the flags that reach the recursion), after one
filtering step the particles and log-weights carried into the next timestep
are graph-live: the detach choice claimed to be exposed to the caller does
not exist, so at this concrete input the caller cannot choose truncated
backprop-through-time. -/
theorem c6_no_detach_flag_cex : c6Configs.all c6CarryLive = true := by decide

/-- C6 amended: train_e2e hardwires full backprop-through-time.  For every
configuration (loss_type = mse shown; the gmm case is symmetric), one pass
of the timestep loop returns exactly the pf-forward outputs as the next
carry, through e2eCarry, which is the identity and takes no flag; the
detaching variant exists only as commented-out source lines 286-287. -/
theorem c6_bptt_hardwired {α β O C : Type} [Inhabited O] [Inhabited C]
    (pf_forward : Traced α → Traced β → O → C → Bool → Bool → Bool →
      List (List ℚ) × Traced α × Traced β)
    (gmm_loss : Traced α → Traced β → List (List ℚ) → ℚ)
    (cfg : E2EConfig) (batch : E2EBatch α β O C) (t : ℕ)
    (p : Traced α) (w : Traced β) (hmse : cfg.loss_type = "mse") :
    e2eLoop pf_forward gmm_loss cfg batch [t] (p, w) []
      = .ok ([mse_loss (pf_forward p w (batch.obs.getD (t - 1) default)
            (batch.controls.getD t default) cfg.resample true cfg.know_image_blackout).1
          (batch.states.getD t [])],
        e2eCarry
          (pf_forward p w (batch.obs.getD (t - 1) default)
            (batch.controls.getD t default) cfg.resample true cfg.know_image_blackout).2.1
          (pf_forward p w (batch.obs.getD (t - 1) default)
            (batch.controls.getD t default) cfg.resample true cfg.know_image_blackout).2.2)
    ∧ ∀ (p2 : Traced α) (w2 : Traced β), e2eCarry p2 w2 = (p2, w2) := by
  refine ⟨?_, fun p2 w2 => rfl⟩
  simp [e2eLoop, hmse, e2eCarry]

/-- Witness for c6_bptt_hardwired at the concrete step c6PF, batch c6Batch
and the mse configuration with resample on. -/
theorem c6_bptt_hardwired_witness :
    e2eLoop c6PF c6GMM (E2EConfig.mk "mse" true false) c6Batch [1]
        (Traced.mk (0 : ℚ) false, Traced.mk (0 : ℚ) false) []
      = .ok ([mse_loss (c6PF ⟨0, false⟩ ⟨0, false⟩ (c6Batch.obs.getD 0 default)
            (c6Batch.controls.getD 1 default) true true false).1 (c6Batch.states.getD 1 [])],
        e2eCarry
          (c6PF ⟨0, false⟩ ⟨0, false⟩ (c6Batch.obs.getD 0 default)
            (c6Batch.controls.getD 1 default) true true false).2.1
          (c6PF ⟨0, false⟩ ⟨0, false⟩ (c6Batch.obs.getD 0 default)
            (c6Batch.controls.getD 1 default) true true false).2.2)
    ∧ ∀ (p2 w2 : Traced ℚ), e2eCarry p2 w2 = (p2, w2) :=
  c6_bptt_hardwired c6PF c6GMM (E2EConfig.mk "mse" true false) c6Batch 1
    ⟨0, false⟩ ⟨0, false⟩ rfl

/-- C7: an unsupported loss type fails fast before any optimizer step.
train_dynamics_recurrent rejects any loss_type outside l1, l2, huber, peter
up front (line 15 assert), for every dataloader including the empty one;
train_e2e with any loss_type outside gmm and mse raises the Invalid loss
assert at the first timestep of the first batch (given the batch has at
least two timesteps, so the loop body runs), with zero completed optimizer
steps in both cases. -/
theorem c7_invalid_loss_fails_fast :
    (∀ (γ : Type) [Inhabited γ] (dyn_forward : List (List ℚ) → γ → List (List ℚ))
       (loss_type : String) (batches : List (DynBatch γ)),
       loss_type ∉ validDynLossTypes →
       train_dynamics_recurrent dyn_forward loss_type batches
         = (0, some "AssertionError: loss_type must be l1, l2, huber or peter"))
    ∧ (∀ (α β O C : Type) [Inhabited O] [Inhabited C]
         (pf_forward : Traced α → Traced β → O → C → Bool → Bool → Bool →
           List (List ℚ) × Traced α × Traced β)
         (gmm_loss : Traced α → Traced β → List (List ℚ) → ℚ)
         (cfg : E2EConfig) (init_log_weights : Traced β)
         (b : E2EBatch α β O C) (rest : List (E2EBatch α β O C)),
         cfg.loss_type ≠ "gmm" → cfg.loss_type ≠ "mse" →
         2 ≤ b.states.length → b.controls.length = b.states.length →
         train_e2e pf_forward gmm_loss cfg init_log_weights (b :: rest)
           = (0, some "AssertionError: Invalid loss")) := by
  constructor
  · intro γ _ dyn_forward loss_type batches h
    simp [train_dynamics_recurrent, h]
  · intro α β O C _ _ pf_forward gmm_loss cfg init_log_weights b rest h1 h2 hT hc
    have hrange : List.range' 1 (b.states.length - 1)
        = 1 :: List.range' 2 (b.states.length - 2) := by
      have : b.states.length - 1 = (b.states.length - 2) + 1 := by omega
      rw [this, List.range'_succ]
    simp [train_e2e, train_e2e_batch, hc, hrange, e2eLoop, h1, h2]

/-- Witness for c7_invalid_loss_fails_fast: loss_type l3 is rejected by
train_dynamics_recurrent on an empty dataloader, and loss_type huber (valid
for the other entry point but not for train_e2e) makes train_e2e raise
Invalid loss on the concrete batch c6Batch with zero optimizer steps. -/
theorem c7_invalid_loss_fails_fast_witness :
    train_dynamics_recurrent (fun s (_ : Unit) => s) "l3" []
      = (0, some "AssertionError: loss_type must be l1, l2, huber or peter")
    ∧ train_e2e c6PF c6GMM (E2EConfig.mk "huber" false false) (Traced.mk 0 false) [c6Batch]
      = (0, some "AssertionError: Invalid loss") :=
  ⟨c7_invalid_loss_fails_fast.1 Unit (fun s _ => s) "l3" [] (by decide),
   c7_invalid_loss_fails_fast.2 ℚ ℚ Unit Unit c6PF c6GMM
     (E2EConfig.mk "huber" false false) (Traced.mk 0 false) c6Batch []
     (by decide) (by decide) (by decide) rfl⟩

/-- C9: loss_type peter passes the up-front validation of
train_dynamics_recurrent (it is in the accepted set) but the first computed
timestep loss hits the unconditional assert False of panda_training.py line
76, so for every dataloader whose first batch has at least two timesteps the
run dies with the peter assertion and completes zero optimizer steps. -/
theorem c9_peter_loss_unreachable {γ : Type} [Inhabited γ]
    (dyn_forward : List (List ℚ) → γ → List (List ℚ))
    (b : DynBatch γ) (rest : List (DynBatch γ))
    (hT : 2 ≤ b.states.length) (hc : b.controls.length = b.states.length) :
    "peter" ∈ validDynLossTypes ∧
    train_dynamics_recurrent dyn_forward "peter" (b :: rest)
      = (0, some "AssertionError: peter loss is currently broken") := by
  refine ⟨by decide, ?_⟩
  have hrange : List.range' 1 (b.states.length - 1)
      = 1 :: List.range' 2 (b.states.length - 2) := by
    have : b.states.length - 1 = (b.states.length - 2) + 1 := by omega
    rw [this, List.range'_succ]
  simp [train_dynamics_recurrent, validDynLossTypes, trainDynGo,
    train_dynamics_recurrent_batch, hc, hrange, dynLoop]

/-- Witness for c9_peter_loss_unreachable on a concrete two-timestep batch
with identity dynamics. -/
theorem c9_peter_loss_unreachable_witness :
    "peter" ∈ validDynLossTypes ∧
    train_dynamics_recurrent (fun s (_ : Unit) => s) "peter"
        [DynBatch.mk [[[0]], [[0]]] [(), ()]]
      = (0, some "AssertionError: peter loss is currently broken") :=
  c9_peter_loss_unreachable (fun s (_ : Unit) => s)
    (DynBatch.mk [[[0]], [[0]]] [(), ()]) [] (by decide) rfl

/-- A foldr of min is bounded by every list member. -/
lemma foldr_min_le_of_mem {l : List ℕ} {b a : ℕ} (h : a ∈ l) :
    l.foldr min b ≤ a := by
  induction l with
  | nil => cases h
  | cons x xs ih =>
    rcases List.mem_cons.mp h with rfl | h2
    · exact min_le_left _ _
    · exact le_trans (min_le_right _ _) (ih h2)

/-- getD over a map of List.range evaluates the mapped function. -/
lemma getD_map_range {α : Type} (f : ℕ → α) (N i : ℕ) (d : α) (h : i < N) :
    ((List.range N).map f).getD i d = f i := by
  rw [List.getD_eq_getElem?_getD]
  simp [List.getElem?_map, List.getElem?_range h]

/-- getD at an in-range index is a member of the list. -/
lemma getD_mem {α : Type} (l : List α) (i : ℕ) (d : α) (h : i < l.length) :
    l.getD i d ∈ l := by
  rw [List.getD_eq_getElem?_getD, List.getElem?_eq_getElem h]
  exact List.getElem_mem h

/-- vecMean always produces a vector of the requested dimension. -/
lemma vecMean_length (D : ℕ) (ps : List (List ℚ)) : (vecMean D ps).length = D := by
  simp [vecMean]

/-- Shape invariant of the rollout timestep loop: provided the filter step
honors its estimate contract, the loop keeps one row per trajectory, extends
every row by exactly one length-D estimate per timestep, and never touches
the head of a row. -/
lemma rolloutLoop_spec {O C : Type} [Inhabited O] [Inhabited C] {D : ℕ}
    (pf_forward : List (List (List ℚ)) → List (List ℚ) → List O → List C →
      List (List ℚ) × List (List (List ℚ)) × List (List ℚ))
    (trajs : List (Trajectory O C))
    (hpf : ∀ p w o c, (pf_forward p w o c).1.length = trajs.length ∧
      ∀ v ∈ (pf_forward p w o c).1, v.length = D)
    (ts : List ℕ) :
    ∀ (particles : List (List (List ℚ))) (log_weights : List (List ℚ))
      (pred : List (List (List ℚ))) (k : ℕ),
      1 ≤ k →
      pred.length = trajs.length →
      (∀ row ∈ pred, row.length = k ∧ ∀ v ∈ row, v.length = D) →
      (rolloutLoop pf_forward trajs ts particles log_weights pred).length = trajs.length ∧
      (∀ row ∈ rolloutLoop pf_forward trajs ts particles log_weights pred,
        row.length = k + ts.length ∧ ∀ v ∈ row, v.length = D) ∧
      (∀ i < trajs.length,
        ((rolloutLoop pf_forward trajs ts particles log_weights pred).getD i []).head?
          = (pred.getD i []).head?) := by
  induction ts with
  | nil =>
    intro particles log_weights pred k hk hlen hrows
    refine ⟨hlen, ?_, fun i hi => rfl⟩
    intro row hrow
    simpa using hrows row hrow
  | cons t rest ih =>
    intro particles log_weights pred k hk hlen hrows
    rw [rolloutLoop]
    set o := trajs.map fun tr => tr.observations.getD t default with ho
    set c := trajs.map fun tr => tr.controls.getD t default with hc
    set step := pf_forward particles log_weights o c with hstep
    set pred2 := (List.range trajs.length).map fun i =>
      pred.getD i [] ++ [step.1.getD i []] with hpred2
    have hlen2 : pred2.length = trajs.length := by simp [hpred2]
    have hrows2 : ∀ row ∈ pred2, row.length = k + 1 ∧ ∀ v ∈ row, v.length = D := by
      intro row hrow
      obtain ⟨i, hi, rfl⟩ := List.mem_map.mp hrow
      have hiN : i < trajs.length := List.mem_range.mp hi
      have hpredi : pred.getD i [] ∈ pred := getD_mem _ _ _ (by omega)
      obtain ⟨hrl, hrv⟩ := hrows _ hpredi
      refine ⟨by rw [List.length_append, hrl]; rfl, ?_⟩
      intro v hv
      rcases List.mem_append.mp hv with h | h
      · exact hrv v h
      · have hv2 : v = step.1.getD i [] := by simpa using h
        subst hv2
        have h1 := (hpf particles log_weights o c).1
        have hmem : step.1.getD i [] ∈ step.1 := by
          refine getD_mem _ _ _ ?_
          rw [← hstep] at h1
          omega
        exact (hpf particles log_weights o c).2 _ (by rw [hstep]; exact hmem)
    obtain ⟨ha, hb, hc2⟩ := ih step.2.1 step.2.2 pred2 (k + 1) (by omega) hlen2 hrows2
    refine ⟨ha, ?_, ?_⟩
    · intro row h
      obtain ⟨h1, h2⟩ := hb row h
      exact ⟨by simp at h1 ⊢; omega, h2⟩
    · intro i hi
      rw [hc2 i hi]
      have hgd : pred2.getD i [] = pred.getD i [] ++ [step.1.getD i []] :=
        getD_map_range _ _ _ _ hi
      rw [hgd]
      have hne : pred.getD i [] ≠ [] := by
        have := (hrows (pred.getD i []) (getD_mem pred i [] (by omega))).1
        intro hcon
        rw [hcon] at this
        simp at this
        omega
      obtain ⟨a, as, hcons⟩ := List.exists_cons_of_ne_nil hne
      rw [hcons]
      simp

/-- C5: for every non-empty trajectory list with uniform state dimension D,
every filter step honoring the estimate-shape contract, and a valid window
(start_time strictly below end_time = min(shortest trajectory length,
start_time + max_timesteps)), rollout returns a pair (predicted, actual) of
N-row arrays whose rows all have length T = end_time - start_time with
entries of dimension D; actual is exactly each trajectory ground-truth slice
over the window, and each predicted row starts with the initial
particle-mean estimate and gains one filter-step estimate per remaining
timestep. -/
theorem c5_rollout_shapes {O C : Type} [Inhabited O] [Inhabited C]
    (pf_forward : List (List (List ℚ)) → List (List ℚ) → List O → List C →
      List (List ℚ) × List (List (List ℚ)) × List (List ℚ))
    (trajs : List (Trajectory O C)) (start_time max_timesteps particle_count : ℕ)
    (init_particles : List (List (List ℚ))) (neg_log_M : ℚ) (D : ℕ)
    (h0 : trajs ≠ [])
    (hD : ∀ tr ∈ trajs, ∀ st ∈ tr.states, st.length = D)
    (hstart : start_time < endTime trajs start_time max_timesteps)
    (hpf : ∀ p w o c, (pf_forward p w o c).1.length = trajs.length ∧
      ∀ v ∈ (pf_forward p w o c).1, v.length = D) :
    ∃ predicted actual,
      rollout pf_forward trajs start_time max_timesteps particle_count
          init_particles neg_log_M
        = .ok (predicted, actual)
      ∧ actual = trajs.map (fun tr => (tr.states.drop start_time).take
          (endTime trajs start_time max_timesteps - start_time))
      ∧ predicted.length = trajs.length
      ∧ actual.length = trajs.length
      ∧ (∀ row ∈ predicted,
          row.length = endTime trajs start_time max_timesteps - start_time
          ∧ ∀ v ∈ row, v.length = D)
      ∧ (∀ row ∈ actual,
          row.length = endTime trajs start_time max_timesteps - start_time
          ∧ ∀ v ∈ row, v.length = D)
      ∧ (∀ i < trajs.length, (predicted.getD i []).head?
          = some (vecMean D (init_particles.getD i []))) := by
  obtain ⟨tr0, trest, rfl⟩ := List.exists_cons_of_ne_nil h0
  set trajs := tr0 :: trest with htrajs
  set e := endTime trajs start_time max_timesteps with he
  have hele : ∀ tr ∈ trajs, e ≤ tr.states.length := by
    intro tr htr
    exact foldr_min_le_of_mem (List.mem_map_of_mem _ htr)
  have hlen0 : ((tr0.states.drop start_time).take (e - start_time)).length
      = e - start_time := by
    rw [List.length_take, List.length_drop]
    have := hele tr0 (by simp [htrajs])
    omega
  have hne0 : (tr0.states.drop start_time).take (e - start_time) ≠ [] := by
    intro hcon
    rw [hcon] at hlen0
    simp at hlen0
    omega
  obtain ⟨s00, atail, hcons⟩ := List.exists_cons_of_ne_nil hne0
  have hs00D : s00.length = D := by
    have hmem : s00 ∈ tr0.states := by
      have : s00 ∈ (tr0.states.drop start_time).take (e - start_time) := by
        rw [hcons]; exact List.mem_cons_self _ _
      exact List.mem_of_mem_drop (List.mem_of_mem_take this)
    exact hD tr0 (by simp [htrajs]) s00 hmem
  have hrollout : rollout pf_forward trajs start_time max_timesteps particle_count
      init_particles neg_log_M
      = .ok (rolloutLoop pf_forward trajs
          (List.range' (start_time + 1) (e - (start_time + 1)))
          init_particles
          (List.replicate trajs.length (List.replicate particle_count neg_log_M))
          ((List.range trajs.length).map fun i =>
            [vecMean s00.length (init_particles.getD i [])]),
        trajs.map fun tr => (tr.states.drop start_time).take (e - start_time)) := by
    rw [rollout]
    simp only [htrajs, List.map_cons, ← he]
    rw [hcons]
  rw [hs00D] at hrollout
  set pred0 := (List.range trajs.length).map fun i =>
    [vecMean D (init_particles.getD i [])] with hpred0
  have hlenp0 : pred0.length = trajs.length := by simp [hpred0]
  have hrowsp0 : ∀ row ∈ pred0, row.length = 1 ∧ ∀ v ∈ row, v.length = D := by
    intro row hrow
    obtain ⟨i, hi, rfl⟩ := List.mem_map.mp hrow
    refine ⟨rfl, ?_⟩
    intro v hv
    have : v = vecMean D (init_particles.getD i []) := by simpa using hv
    subst this
    exact vecMean_length D _
  obtain ⟨ha, hb, hc2⟩ := rolloutLoop_spec pf_forward trajs hpf
    (List.range' (start_time + 1) (e - (start_time + 1)))
    init_particles
    (List.replicate trajs.length (List.replicate particle_count neg_log_M))
    pred0 1 le_rfl hlenp0 hrowsp0
  refine ⟨_, _, hrollout, rfl, ha, by simp, ?_, ?_, ?_⟩
  · intro row hrow
    obtain ⟨h1, h2⟩ := hb row hrow
    refine ⟨?_, h2⟩
    rw [h1]
    simp only [List.length_range']
    omega
  · intro row hrow
    obtain ⟨tr, htr, rfl⟩ := List.mem_map.mp hrow
    constructor
    · rw [List.length_take, List.length_drop]
      have := hele tr htr
      omega
    · intro v hv
      exact hD tr htr v (List.mem_of_mem_drop (List.mem_of_mem_take hv))
  · intro i hi
    rw [hc2 i hi, hpred0, getD_map_range _ _ _ _ hi]
    rfl

/-- Witness for c5_rollout_shapes: one trajectory of two timesteps with
D = 2, window starting at 0 with the default 300-timestep cap, and the
concrete step c5PF. -/
theorem c5_rollout_shapes_witness :
    ∃ predicted actual,
      rollout c5PF [c5Traj] 0 300 100 [[[0, 0]]] 0 = .ok (predicted, actual)
      ∧ actual = [c5Traj].map (fun tr => (tr.states.drop 0).take
          (endTime [c5Traj] 0 300 - 0))
      ∧ predicted.length = [c5Traj].length
      ∧ actual.length = [c5Traj].length
      ∧ (∀ row ∈ predicted,
          row.length = endTime [c5Traj] 0 300 - 0
          ∧ ∀ v ∈ row, v.length = 2)
      ∧ (∀ row ∈ actual,
          row.length = endTime [c5Traj] 0 300 - 0
          ∧ ∀ v ∈ row, v.length = 2)
      ∧ (∀ i < [c5Traj].length, (predicted.getD i []).head?
          = some (vecMean 2 ([[[(0 : ℚ), 0]]].getD i []))) :=
  c5_rollout_shapes c5PF [c5Traj] 0 300 100 [[[0, 0]]] 0 2
    (by simp) (by decide) (by decide)
    (fun p w o c => ⟨rfl, by
      intro v hv
      have : v = [5, 5] := by simpa [c5PF] using hv
      rw [this]
      rfl⟩)
